import Mathlib

/-!
Shallow embedding of the loamy repository: the concurrent HTTP dispatch
engine in `src/loamy/session.py` (class `Clump` with its `RequestMap` and
`RequestResponse` models) and the earlier split-aggregate variant in
`src/zconcurrent/zsession.py` (class `zSession`, `RequestResults`,
`_processResults`).

Modelling choices:
  * Python values that can appear in a decoded JSON body are the inductive
    `PyVal`; a Python `dict` body is an association list `PyDict`.
  * Python exceptions are the inductive `PyExc`.  The constructor
    `baseException` stands for a `BaseException` that is not an `Exception`
    (`KeyboardInterrupt`, `asyncio.CancelledError`, ...); every other
    constructor is an `Exception` subclass.  `contentTypeError` and
    `jsonDecodeError` are the two decode errors caught by the body decoder.
  * The aiohttp client session is the record `Session`: one function `send`
    taking the HTTP operation, the url, the optional headers, the optional
    query params and the optional JSON body argument, returning either a
    raised exception or an `HttpResp`.  An `HttpResp` carries the status,
    the headers, the result of `await resp.json()` (`jsonResult`, an
    exception when decoding fails) and the raw text `await resp.text()`
    (modelled as always readable).
  * `asyncio.gather` preserves the order of its argument tasks in its
    result list regardless of completion order, so the gather step is a
    `List.map` over the request list; with `return_exceptions=False` a
    raised task exception makes the whole gather raise, modelled by
    `firstEscape` picking the first raised exception in list order.
  * Fallible Python code is embedded as `Except PyExc _`: a `.error e`
    value is an exception propagating out of the embedded code.
-/

namespace Loamy

/-- Values of decoded JSON bodies (Python values inside a `dict`). -/
inductive PyVal where
  | str (s : String)
  | num (n : Int)
  | boolean (b : Bool)
  | null
  | arr (xs : List PyVal)
  | obj (fields : List (String × PyVal))
  deriving Repr

/-- A Python `dict` as produced by JSON decoding: an association list. -/
abbrev PyDict := List (String × PyVal)

/-- Python exceptions relevant to the engine.  `baseException` is a
`BaseException` that is not an `Exception`; all other constructors are
`Exception` subclasses. -/
inductive PyExc where
  | contentTypeError (msg : String)
  | jsonDecodeError (msg : String)
  | notImplementedError
  | clientError (msg : String)
  | otherError (msg : String)
  | baseException (msg : String)
  deriving Repr, DecidableEq

/-- `isinstance(e, Exception)`: everything except non-`Exception`
`BaseException`s such as cancellation. -/
def PyExc.isException : PyExc → Bool
  | .baseException _ => false
  | _ => true

/-- The two decode errors caught by the body decoder:
`aiohttp.ContentTypeError` and `json.JSONDecodeError`. -/
def PyExc.isDecodeError : PyExc → Bool
  | .contentTypeError _ => true
  | .jsonDecodeError _ => true
  | _ => false

/-- `RequestMap` (src/loamy/session.py lines 22-31): description of a
single HTTP request.  `http_op` is kept as a string, as in Python;
pydantic validation of the `Literal` type is `RequestMap.validate`
below. -/
structure RequestMap where
  url : String
  http_op : String
  body : Option PyDict := none
  query_params : Option (List (String × String)) := none
  headers : Option (List (String × String)) := none
  deriving Repr

/-- `RequestResponse` (src/loamy/session.py lines 34-45): the outcome of a
single HTTP request. -/
structure RequestResponse where
  request_map : RequestMap
  status_code : Int
  body : Option PyDict := none
  headers : Option (List (String × String)) := none
  error : Option PyExc := none
  deriving Repr

/-- The six values of the `Literal` type of `http_op`. -/
def validOps : List String := ["GET", "POST", "PUT", "PATCH", "OPTIONS", "DELETE"]

/-- The pydantic `ValidationError` raised when a field does not match its
declared type. -/
inductive ValidationError where
  | literalError (field : String) (got : String)
  deriving Repr, DecidableEq

/-- Pydantic construction of a `RequestMap`: the `Literal` annotation on
`http_op` makes construction with any other string raise a
`ValidationError`. -/
def RequestMap.validate (url : String) (http_op : String)
    (body : Option PyDict := none)
    (query_params : Option (List (String × String)) := none)
    (headers : Option (List (String × String)) := none) :
    Except ValidationError RequestMap :=
  if http_op ∈ validOps then
    .ok { url := url, http_op := http_op, body := body,
          query_params := query_params, headers := headers }
  else
    .error (.literalError "http_op" http_op)

/-- Whether a request map carries one of the six supported verbs. -/
def RequestMap.hasValidOp (r : RequestMap) : Bool :=
  validOps.contains r.http_op

/-- The six transport operations exposed by the aiohttp client session. -/
inductive HttpOp where
  | get | post | put | patch | options | delete
  deriving Repr, DecidableEq

/-- The transport response for one request: status, headers, the result of
`await resp.json()` and the raw text of the body. -/
structure HttpResp where
  status : Int
  headers : List (String × String)
  jsonResult : Except PyExc PyDict
  text : String
  deriving Repr

/-- The shared aiohttp `ClientSession`: `send op url headers params body`
models `session.get(url, headers=..., params=...)` for `op = .get` (body
argument `none`) and `session.post(url, json=body, headers=..., params=...)`
and friends for the other verbs. -/
structure Session where
  send : HttpOp → String → Option (List (String × String)) →
    Option (List (String × String)) → Option PyDict → Except PyExc HttpResp

/-- The decode-fallback body built when JSON decoding fails:
`{"text": <raw text>}`. -/
def textWrapper (t : String) : PyDict := [("text", PyVal.str t)]

/-- The `RequestResponse` object created at the top of `_route_request`:
`RequestResponse(request_map=req_map, status_code=0)`. -/
def initResponse (req : RequestMap) : RequestResponse :=
  { request_map := req, status_code := 0 }

namespace Clump

/-- `Clump._send_get_request` (lines 120-145): issue the GET, then try to
decode the body as JSON; on `ContentTypeError`/`JSONDecodeError` record the
error and fall back to the text wrapper.  Any other exception (from the
transport call or from reading the body) propagates. -/
def send_get_request (session : Session) (req : RequestMap) :
    Except PyExc RequestResponse :=
  match session.send .get req.url req.headers req.query_params none with
  | .error e => .error e
  | .ok resp =>
    match resp.jsonResult with
    | .ok body =>
        .ok { request_map := req, status_code := resp.status,
              body := some body, headers := some resp.headers, error := none }
    | .error e =>
        if e.isDecodeError then
          .ok { request_map := req, status_code := resp.status,
                body := some (textWrapper resp.text),
                headers := some resp.headers, error := some e }
        else
          .error e

/-- `Clump._send_post_request` (lines 147-175): same as GET but the
request body is attached as the JSON payload. -/
def send_post_request (session : Session) (req : RequestMap) :
    Except PyExc RequestResponse :=
  match session.send .post req.url req.headers req.query_params req.body with
  | .error e => .error e
  | .ok resp =>
    match resp.jsonResult with
    | .ok body =>
        .ok { request_map := req, status_code := resp.status,
              body := some body, headers := some resp.headers, error := none }
    | .error e =>
        if e.isDecodeError then
          .ok { request_map := req, status_code := resp.status,
                body := some (textWrapper resp.text),
                headers := some resp.headers, error := some e }
        else
          .error e

/-- `Clump._send_put_request` (lines 177-205). -/
def send_put_request (session : Session) (req : RequestMap) :
    Except PyExc RequestResponse :=
  match session.send .put req.url req.headers req.query_params req.body with
  | .error e => .error e
  | .ok resp =>
    match resp.jsonResult with
    | .ok body =>
        .ok { request_map := req, status_code := resp.status,
              body := some body, headers := some resp.headers, error := none }
    | .error e =>
        if e.isDecodeError then
          .ok { request_map := req, status_code := resp.status,
                body := some (textWrapper resp.text),
                headers := some resp.headers, error := some e }
        else
          .error e

/-- `Clump._send_patch_request` (lines 207-235). -/
def send_patch_request (session : Session) (req : RequestMap) :
    Except PyExc RequestResponse :=
  match session.send .patch req.url req.headers req.query_params req.body with
  | .error e => .error e
  | .ok resp =>
    match resp.jsonResult with
    | .ok body =>
        .ok { request_map := req, status_code := resp.status,
              body := some body, headers := some resp.headers, error := none }
    | .error e =>
        if e.isDecodeError then
          .ok { request_map := req, status_code := resp.status,
                body := some (textWrapper resp.text),
                headers := some resp.headers, error := some e }
        else
          .error e

/-- `Clump._send_options_request` (lines 237-265). -/
def send_options_request (session : Session) (req : RequestMap) :
    Except PyExc RequestResponse :=
  match session.send .options req.url req.headers req.query_params req.body with
  | .error e => .error e
  | .ok resp =>
    match resp.jsonResult with
    | .ok body =>
        .ok { request_map := req, status_code := resp.status,
              body := some body, headers := some resp.headers, error := none }
    | .error e =>
        if e.isDecodeError then
          .ok { request_map := req, status_code := resp.status,
                body := some (textWrapper resp.text),
                headers := some resp.headers, error := some e }
        else
          .error e

/-- `Clump._send_delete_request` (lines 267-295). -/
def send_delete_request (session : Session) (req : RequestMap) :
    Except PyExc RequestResponse :=
  match session.send .delete req.url req.headers req.query_params req.body with
  | .error e => .error e
  | .ok resp =>
    match resp.jsonResult with
    | .ok body =>
        .ok { request_map := req, status_code := resp.status,
              body := some body, headers := some resp.headers, error := none }
    | .error e =>
        if e.isDecodeError then
          .ok { request_map := req, status_code := resp.status,
                body := some (textWrapper resp.text),
                headers := some resp.headers, error := some e }
        else
          .error e

/-- The body of the `try` block of `Clump._route_request` (lines 94-111):
the `match` on `req_map.http_op`, raising `NotImplementedError` on an
unmapped verb. -/
def routeRequestInner (session : Session) (req : RequestMap) :
    Except PyExc RequestResponse :=
  match req.http_op with
  | "GET" => send_get_request session req
  | "POST" => send_post_request session req
  | "PUT" => send_put_request session req
  | "PATCH" => send_patch_request session req
  | "OPTIONS" => send_options_request session req
  | "DELETE" => send_delete_request session req
  | _ => .error .notImplementedError

/-- `Clump._route_request` (lines 90-118): run the inner dispatch under
`try ... except Exception as e`, which stores a caught `Exception` on the
initial response object (`status_code=0`, no body, no headers) and returns
it; a non-`Exception` `BaseException` propagates. -/
def route_request (session : Session) (req : RequestMap) :
    Except PyExc RequestResponse :=
  match routeRequestInner session req with
  | .ok r => .ok r
  | .error e =>
      if e.isException then .ok { initResponse req with error := some e }
      else .error e

/-- The list produced by `asyncio.gather` over one task per request
(lines 65-72): gather preserves input order, so this is a map. -/
def gatherResults (session : Session) (reqs : List RequestMap) :
    List (Except PyExc RequestResponse) :=
  reqs.map (route_request session)

/-- One step of the result loop of `_send_requests` (lines 75-86): a task
result that is a `BaseException` is replaced by a synthesized
`RequestResponse` with `status_code=418` and the exception nested. -/
def handleGatherItem (req : RequestMap) :
    Except PyExc RequestResponse → RequestResponse
  | .ok r => r
  | .error e => { request_map := req, status_code := 418, error := some e }

/-- The first raised task exception, in list order: with
`return_exceptions=False`, `asyncio.gather` re-raises a task exception
instead of returning the list (which exception wins under true concurrency
is timing-dependent; list order is the deterministic embedding). -/
def firstEscape : List (Except PyExc RequestResponse) → Option PyExc
  | [] => none
  | .error e :: _ => some e
  | .ok _ :: rest => firstEscape rest

/-- `Clump._send_requests` (lines 63-88), with `send_requests`
(lines 57-61) running it: gather all routed requests, then walk the
results, nesting any `BaseException` into a synthesized 418 response.
With `rtn_exc = false` a raised task exception propagates out of
`asyncio.gather` and aborts the call. -/
def send_requests (rtn_exc : Bool) (session : Session)
    (reqs : List RequestMap) : Except PyExc (List RequestResponse) :=
  let results := gatherResults session reqs
  if rtn_exc then
    .ok ((reqs.zip results).map fun p => handleGatherItem p.1 p.2)
  else
    match firstEscape results with
    | some e => .error e
    | none => .ok ((reqs.zip results).map fun p => handleGatherItem p.1 p.2)

/-- The transport call `_route_request` makes for a given request map:
which `Session.send` operation runs, and with which body argument (GET
sends none, the other five attach `req.body`).  Used to state properties
relating an outcome to its transport response. -/
def sessionCall (session : Session) (req : RequestMap) :
    Except PyExc HttpResp :=
  match req.http_op with
  | "GET" => session.send .get req.url req.headers req.query_params none
  | "POST" => session.send .post req.url req.headers req.query_params req.body
  | "PUT" => session.send .put req.url req.headers req.query_params req.body
  | "PATCH" => session.send .patch req.url req.headers req.query_params req.body
  | "OPTIONS" => session.send .options req.url req.headers req.query_params req.body
  | "DELETE" => session.send .delete req.url req.headers req.query_params req.body
  | _ => .error .notImplementedError

/-- Specification view of the inner dispatch of `_route_request`: each of
the six send functions follows the same shape over its transport call, so
the whole verb `match` equals one decode step over `sessionCall`.  Proved
equal to `routeRequestInner` below. -/
def routeSpec (session : Session) (req : RequestMap) :
    Except PyExc RequestResponse :=
  match sessionCall session req with
  | .error e => .error e
  | .ok resp =>
    match resp.jsonResult with
    | .ok body =>
        .ok { request_map := req, status_code := resp.status,
              body := some body, headers := some resp.headers, error := none }
    | .error e =>
        if e.isDecodeError then
          .ok { request_map := req, status_code := resp.status,
                body := some (textWrapper resp.text),
                headers := some resp.headers, error := some e }
        else
          .error e

end Clump

/-- Clean success state of an outcome (spec section 3): no error, and the
status, body and headers all come from the transport response to the
outcome's own request. -/
def RequestResponse.cleanSuccess (s : Session) (r : RequestResponse) : Prop :=
  r.error = none ∧ ∃ resp body, Clump.sessionCall s r.request_map = .ok resp ∧
    resp.jsonResult = .ok body ∧ r.status_code = resp.status ∧
    r.body = some body ∧ r.headers = some resp.headers

/-- Decode-fallback state of an outcome (spec section 3): the recorded
error is the decode error of the transport response, the status and
headers are the transport ones, and the body is the text wrapper. -/
def RequestResponse.decodeFallback (s : Session) (r : RequestResponse) : Prop :=
  ∃ e resp, r.error = some e ∧ e.isDecodeError = true ∧
    Clump.sessionCall s r.request_map = .ok resp ∧ resp.jsonResult = .error e ∧
    r.status_code = resp.status ∧ r.body = some (textWrapper resp.text) ∧
    r.headers = some resp.headers

/-- Hard-failure state of an outcome (spec section 3): a non-decode
exception is recorded, body and headers are absent, and the status is one
of the two failure sentinels the code produces (0 from the handler inside
`_route_request`, 418 from the gather loop of `_send_requests`). -/
def RequestResponse.hardFailure (r : RequestResponse) : Prop :=
  ∃ e, r.error = some e ∧ e.isDecodeError = false ∧
    (r.status_code = 0 ∨ r.status_code = 418) ∧ r.body = none ∧ r.headers = none

/-- Realism hypothesis on the transport: the transport call itself never
raises a decode error; decode errors arise from `await resp.json()`
(modelled by `jsonResult`), not from issuing the request. -/
def Session.noDecodeRaise (s : Session) : Prop :=
  ∀ op url hdrs ps b e, s.send op url hdrs ps b = .error e →
    e.isDecodeError = false

/-- Exactly one of the three outcome states of spec section 3 holds. -/
def exactlyOneOutcomeState (s : Session) (r : RequestResponse) : Prop :=
  (r.cleanSuccess s ∧ ¬ r.decodeFallback s ∧ ¬ r.hardFailure) ∨
  (¬ r.cleanSuccess s ∧ r.decodeFallback s ∧ ¬ r.hardFailure) ∨
  (¬ r.cleanSuccess s ∧ ¬ r.decodeFallback s ∧ r.hardFailure)

/-- `RequestMap` of src/zconcurrent/zsession.py (lines 9-14). -/
structure ZRequestMap where
  url : String
  httpOperation : String
  body : Option PyDict := none
  queryParams : Option (List (String × String)) := none
  headers : Option (List (String × String)) := none
  deriving Repr

/-- `RequestResponse` of src/zconcurrent/zsession.py (lines 17-20). -/
structure ZRequestResponse where
  requestMap : ZRequestMap
  statusCode : Int
  responseBody : Option PyDict := none
  deriving Repr

/-- `RequestResults` (zsession.py lines 23-26): successful responses and
raised task exceptions, split. -/
structure RequestResults where
  requestResponses : List ZRequestResponse
  taskExceptions : List PyExc
  deriving Repr

namespace zSession

/-- `zSession._sendGetRequest` (lines 75-86): `await resp.json()` has no
decode fallback here, so a decode failure propagates as an exception. -/
def sendGetRequest (session : Session) (req : ZRequestMap) :
    Except PyExc ZRequestResponse :=
  match session.send .get req.url req.headers req.queryParams none with
  | .error e => .error e
  | .ok resp =>
    match resp.jsonResult with
    | .ok body =>
        .ok { requestMap := req, statusCode := resp.status, responseBody := some body }
    | .error e => .error e

/-- `zSession._sendPostRequest` (lines 88-102).  Defined in the source but
never invoked: the router's POST case calls `_sendGetRequest` instead. -/
def sendPostRequest (session : Session) (req : ZRequestMap) :
    Except PyExc ZRequestResponse :=
  match session.send .post req.url req.headers req.queryParams req.body with
  | .error e => .error e
  | .ok resp =>
    match resp.jsonResult with
    | .ok body =>
        .ok { requestMap := req, statusCode := resp.status, responseBody := some body }
    | .error e => .error e

/-- `zSession._sendPutRequest` (lines 104-118). -/
def sendPutRequest (session : Session) (req : ZRequestMap) :
    Except PyExc ZRequestResponse :=
  match session.send .put req.url req.headers req.queryParams req.body with
  | .error e => .error e
  | .ok resp =>
    match resp.jsonResult with
    | .ok body =>
        .ok { requestMap := req, statusCode := resp.status, responseBody := some body }
    | .error e => .error e

/-- `zSession._sendPatchRequest` (lines 120-134). -/
def sendPatchRequest (session : Session) (req : ZRequestMap) :
    Except PyExc ZRequestResponse :=
  match session.send .patch req.url req.headers req.queryParams req.body with
  | .error e => .error e
  | .ok resp =>
    match resp.jsonResult with
    | .ok body =>
        .ok { requestMap := req, statusCode := resp.status, responseBody := some body }
    | .error e => .error e

/-- `zSession._sendOptionsRequest` (lines 136-150). -/
def sendOptionsRequest (session : Session) (req : ZRequestMap) :
    Except PyExc ZRequestResponse :=
  match session.send .options req.url req.headers req.queryParams req.body with
  | .error e => .error e
  | .ok resp =>
    match resp.jsonResult with
    | .ok body =>
        .ok { requestMap := req, statusCode := resp.status, responseBody := some body }
    | .error e => .error e

/-- `zSession._sendDeleteRequest` (lines 152-166). -/
def sendDeleteRequest (session : Session) (req : ZRequestMap) :
    Except PyExc ZRequestResponse :=
  match session.send .delete req.url req.headers req.queryParams req.body with
  | .error e => .error e
  | .ok resp =>
    match resp.jsonResult with
    | .ok body =>
        .ok { requestMap := req, statusCode := resp.status, responseBody := some body }
    | .error e => .error e

/-- `zSession._routeIndividualRequest` (lines 51-73), embedded exactly as
written: the `"POST"` case calls `_sendGetRequest` (the source really does
this), and the default case is `pass`, returning the initial
`RequestResponse(requestMap=reqMap, statusCode=0)` unchanged.  There is no
`try`/`except` here, so any exception propagates to the gather. -/
def routeIndividualRequest (session : Session) (req : ZRequestMap) :
    Except PyExc ZRequestResponse :=
  match req.httpOperation with
  | "GET" => sendGetRequest session req
  | "POST" => sendGetRequest session req
  | "PUT" => sendPutRequest session req
  | "PATCH" => sendPatchRequest session req
  | "OPTIONS" => sendOptionsRequest session req
  | "DELETE" => sendDeleteRequest session req
  | _ => .ok { requestMap := req, statusCode := 0 }

/-- The first raised task exception of a zSession gather, in list order
(same embedding of `return_exceptions=False` as for `Clump`). -/
def zFirstEscape : List (Except PyExc ZRequestResponse) → Option PyExc
  | [] => none
  | .error e :: _ => some e
  | .ok _ :: rest => zFirstEscape rest

end zSession

/-- `_processResults` (zsession.py lines 169-179): walk the task results in
order, appending responses and exceptions to their own lists. -/
def processResults : List (Except PyExc ZRequestResponse) → RequestResults
  | [] => { requestResponses := [], taskExceptions := [] }
  | .ok r :: rest =>
      let rr := processResults rest
      { rr with requestResponses := r :: rr.requestResponses }
  | .error e :: rest =>
      let rr := processResults rest
      { rr with taskExceptions := e :: rr.taskExceptions }

namespace zSession

/-- `zSession._sendRequests` (lines 36-49) with `sendRequests` (33-34)
running it: gather one routed task per request, then split through
`_processResults`.  With `rtn_exc = false` a raised task exception
propagates out of the gather. -/
def sendRequests (rtn_exc : Bool) (session : Session)
    (reqs : List ZRequestMap) : Except PyExc RequestResults :=
  let results := reqs.map (routeIndividualRequest session)
  if rtn_exc then
    .ok (processResults results)
  else
    match zFirstEscape results with
    | some e => .error e
    | none => .ok (processResults results)

end zSession

/-! Concrete fixtures used by witnesses and counterexamples. -/

/-- A JSON response: HTTP 200 with a decodable body. -/
def okResp : HttpResp :=
  { status := 200
    headers := [("Content-Type", "application/json")]
    jsonResult := .ok [("foo", PyVal.str "bar")]
    text := "foo bar" }

/-- A session whose endpoint always answers with `okResp`. -/
def okSession : Session := ⟨fun _ _ _ _ _ => .ok okResp⟩

/-- A plain-text response: HTTP 200 whose body is not decodable as JSON. -/
def textResp : HttpResp :=
  { status := 200
    headers := [("Content-Type", "text/plain")]
    jsonResult := .error (.contentTypeError "unexpected mimetype")
    text := "hello world" }

/-- A session whose endpoint always answers with the non-JSON `textResp`. -/
def textSession : Session := ⟨fun _ _ _ _ _ => .ok textResp⟩

/-- A session whose transport always raises an `aiohttp` client error (an
`Exception`). -/
def errSession : Session := ⟨fun _ _ _ _ _ => .error (.clientError "connection refused")⟩

/-- A session whose transport always raises a non-`Exception`
`BaseException` (cancellation). -/
def cancelSession : Session := ⟨fun _ _ _ _ _ => .error (.baseException "CancelledError")⟩

/-- A probe session that records which transport operation was invoked (in
the status) and which body argument it received (echoed as the response
body). -/
def opProbeSession : Session :=
  ⟨fun op _ _ _ body =>
    .ok { status :=
            match op with
            | .get => 1
            | .post => 2
            | .put => 3
            | .patch => 4
            | .options => 5
            | .delete => 6
          headers := []
          jsonResult := .ok (match body with | none => [] | some b => b)
          text := "" }⟩

/-- A simple GET request map. -/
def demoGet : RequestMap := { url := "http://localhost:44777/", http_op := "GET" }

/-- A simple POST request map with a body. -/
def demoPost : RequestMap :=
  { url := "http://localhost:44777/foo", http_op := "POST"
    body := some [("foo", PyVal.str "bar")] }

/-- A request map carrying a verb outside the six supported ones (such a
map cannot come out of pydantic validation, but `_route_request` is defined
on it). -/
def brewReq : RequestMap := { url := "http://localhost:44777/", http_op := "BREW" }

/-- A zSession POST request map with a body. -/
def zPostReq : ZRequestMap :=
  { url := "http://localhost:44777/foo", httpOperation := "POST"
    body := some [("foo", PyVal.str "bar")] }

/-- The decode-fallback outcome `textSession` produces for `req`. -/
def textFallbackOutcome (req : RequestMap) : RequestResponse :=
  { request_map := req, status_code := 200,
    body := some (textWrapper "hello world"),
    headers := some [("Content-Type", "text/plain")],
    error := some (PyExc.contentTypeError "unexpected mimetype") }

/-! Characterization lemmas for the Clump dispatch. -/

/-- The verb dispatch of `_route_request` coincides with the single decode
step `routeSpec` over the transport call `sessionCall`: the six send
functions only differ in which transport operation they invoke and whether
a body payload is attached. -/
theorem Clump.routeRequestInner_eq_spec (s : Session) (req : RequestMap) :
    Clump.routeRequestInner s req = Clump.routeSpec s req := by
  unfold Clump.routeRequestInner Clump.routeSpec Clump.sessionCall
  split <;> rfl

/-- Unfolding of `_route_request` through `routeSpec`. -/
theorem Clump.route_request_eq_spec (s : Session) (req : RequestMap) :
    Clump.route_request s req =
      match Clump.routeSpec s req with
      | .ok r => .ok r
      | .error e =>
          if e.isException then .ok { initResponse req with error := some e }
          else .error e := by
  unfold Clump.route_request
  rw [Clump.routeRequestInner_eq_spec]

/-- A successful `routeSpec` outcome carries its own request map. -/
theorem Clump.routeSpec_ok_request_map (s : Session) (req : RequestMap)
    (r : RequestResponse) (h : Clump.routeSpec s req = .ok r) :
    r.request_map = req := by
  unfold Clump.routeSpec at h
  split at h
  · cases h
  · split at h
    · cases h; rfl
    · split at h
      · cases h; rfl
      · cases h

/-- Any outcome returned (rather than raised) by `_route_request` carries
its own request map. -/
theorem Clump.route_request_ok_request_map (s : Session) (req : RequestMap)
    (r : RequestResponse) (h : Clump.route_request s req = .ok r) :
    r.request_map = req := by
  rw [Clump.route_request_eq_spec] at h
  split at h
  · rename_i r0 heq
    cases h
    exact Clump.routeSpec_ok_request_map s req _ heq
  · rename_i e heq
    split at h
    · cases h; rfl
    · cases h

/-- An exception raised out of `routeSpec` is either the transport call
raising, or a non-decode exception raised by `await resp.json()`. -/
theorem Clump.routeSpec_error_cases (s : Session) (req : RequestMap)
    (e : PyExc) (h : Clump.routeSpec s req = .error e) :
    Clump.sessionCall s req = .error e ∨
      ∃ resp, Clump.sessionCall s req = .ok resp ∧
        resp.jsonResult = .error e ∧ e.isDecodeError = false := by
  unfold Clump.routeSpec at h
  split at h
  · rename_i e0 heq
    cases h
    exact Or.inl heq
  · rename_i resp heq
    split at h
    · cases h
    · rename_i e0 heq2
      split at h
      · cases h
      · rename_i hdec
        cases h
        exact Or.inr ⟨resp, heq, heq2, by simpa using hdec⟩

/-- An exception raised out of `_route_request` is never an `Exception`:
those are all caught by the handler. -/
theorem Clump.route_request_error_not_exception (s : Session)
    (req : RequestMap) (e : PyExc) (h : Clump.route_request s req = .error e) :
    e.isException = false := by
  rw [Clump.route_request_eq_spec] at h
  split at h
  · cases h
  · rename_i e0 heq
    split at h
    · cases h
    · rename_i hexc
      cases h
      simpa using hexc

/-- Mapping a combining function over a list zipped with its own image:
the shape of the result loop of `_send_requests`. -/
theorem zipSelfMap {α β γ : Type} (g : α → β → γ) (f : α → β) (l : List α) :
    ((l.zip (l.map f)).map fun p => g p.1 p.2) = l.map fun a => g a (f a) := by
  induction l with
  | nil => rfl
  | cons a t ih => simpa using ih

/-- In collect mode the dispatch returns one handled gather item per
request, in request order. -/
theorem Clump.send_requests_collect_eq (s : Session) (reqs : List RequestMap) :
    Clump.send_requests true s reqs =
      .ok (reqs.map fun req =>
        Clump.handleGatherItem req (Clump.route_request s req)) := by
  simp only [Clump.send_requests, Clump.gatherResults, if_true]
  rw [zipSelfMap]

/-- In fail-fast mode the dispatch raises the first escaped task exception
and otherwise returns the handled gather items. -/
theorem Clump.send_requests_failfast_eq (s : Session) (reqs : List RequestMap) :
    Clump.send_requests false s reqs =
      match Clump.firstEscape (Clump.gatherResults s reqs) with
      | some e => .error e
      | none => .ok (reqs.map fun req =>
          Clump.handleGatherItem req (Clump.route_request s req)) := by
  simp only [Clump.send_requests, Bool.false_eq_true, if_false]
  cases h : Clump.firstEscape (Clump.gatherResults s reqs) <;>
    simp [h, Clump.gatherResults, zipSelfMap]

/-- Claim C1: with `return_exceptions=true`, `send_requests` on a batch of
N request maps returns a list of exactly N responses, and the i-th
response carries the i-th input request map, for every session behavior
(gather preserves task order regardless of completion order). -/
theorem send_requests_collect_cardinality_and_alignment (s : Session)
    (reqs : List RequestMap) :
    ∃ rs, Clump.send_requests true s reqs = .ok rs ∧
      rs.length = reqs.length ∧
      ∀ i (hi : i < rs.length) (hr : i < reqs.length),
        (rs.get ⟨i, hi⟩).request_map = reqs.get ⟨i, hr⟩ := by
  refine ⟨_, Clump.send_requests_collect_eq s reqs, by simp, ?_⟩
  intro i hi hr
  simp only [List.get_eq_getElem, List.getElem_map]
  cases h : Clump.route_request s reqs[i] with
  | ok r =>
      simpa [Clump.handleGatherItem, h] using
        Clump.route_request_ok_request_map _ _ _ h
  | error e => simp [Clump.handleGatherItem, h]

/-- Witness for C1: a concrete two-request batch against a concrete
session. -/
theorem send_requests_collect_cardinality_and_alignment_witness :
    ∃ rs, Clump.send_requests true okSession [demoGet, demoPost] = .ok rs ∧
      rs.length = [demoGet, demoPost].length ∧
      ∀ i (hi : i < rs.length) (hr : i < [demoGet, demoPost].length),
        (rs.get ⟨i, hi⟩).request_map = [demoGet, demoPost].get ⟨i, hr⟩ :=
  send_requests_collect_cardinality_and_alignment okSession [demoGet, demoPost]

/-- A first escaped exception is an element of the gather results. -/
theorem Clump.firstEscape_some_mem (l : List (Except PyExc RequestResponse))
    (e : PyExc) (h : Clump.firstEscape l = some e) : Except.error e ∈ l := by
  induction l with
  | nil => cases h
  | cons a t ih =>
      cases a with
      | error e0 =>
          simp only [Clump.firstEscape, Option.some_inj] at h
          simp [h]
      | ok r =>
          simp only [Clump.firstEscape] at h
          exact List.mem_cons_of_mem _ (ih h)

/-- Counterexample to claim C2 as stated: a batch whose only request fails
with an `aiohttp` client error, dispatched with the default
`return_exceptions=False`, does not raise — the error is caught inside
`_route_request` and the call returns a normal list whose single outcome
nests the error. -/
theorem send_requests_failfast_returns_despite_failure :
    Clump.send_requests false errSession [demoGet] =
      .ok [{ request_map := demoGet, status_code := 0, body := none,
             headers := none,
             error := some (PyExc.clientError "connection refused") }] := by
  rfl

/-- Claim C2 amended: with `return_exceptions=False`, the dispatch call
raises only when a unit of work raises a `BaseException` that is not an
`Exception`; ordinary `Exception` failures are contained into outcomes by
`_route_request`, and when no task exception escapes the call returns a
full-cardinality list. -/
theorem send_requests_failfast_raises_only_base_exceptions (s : Session)
    (reqs : List RequestMap) :
    (∀ e, Clump.send_requests false s reqs = .error e →
      e.isException = false) ∧
    (Clump.firstEscape (Clump.gatherResults s reqs) = none →
      ∃ rs, Clump.send_requests false s reqs = .ok rs ∧
        rs.length = reqs.length) := by
  constructor
  · intro e h
    rw [Clump.send_requests_failfast_eq] at h
    cases hfe : Clump.firstEscape (Clump.gatherResults s reqs) with
    | none => rw [hfe] at h; cases h
    | some e0 =>
        rw [hfe] at h
        cases h
        have hmem := Clump.firstEscape_some_mem _ _ hfe
        simp only [Clump.gatherResults, List.mem_map] at hmem
        obtain ⟨req, _, hroute⟩ := hmem
        exact Clump.route_request_error_not_exception s req _ hroute
  · intro hfe
    rw [Clump.send_requests_failfast_eq, hfe]
    exact ⟨_, rfl, by simp⟩

/-- Witness for the amended C2: the cancellation session makes the
fail-fast call raise a non-`Exception`, and the all-success session makes
it return a one-element list. -/
theorem send_requests_failfast_raises_only_base_exceptions_witness :
    PyExc.isException (.baseException "CancelledError") = false ∧
    ∃ rs, Clump.send_requests false okSession [demoGet] = .ok rs ∧
      rs.length = 1 :=
  ⟨(send_requests_failfast_raises_only_base_exceptions cancelSession
      [demoGet]).1 (.baseException "CancelledError") rfl,
   (send_requests_failfast_raises_only_base_exceptions okSession
      [demoGet]).2 rfl⟩

/-- Claim C10: an `Exception` raised inside `_route_request` (the dispatch
`match` or a send function) never propagates; the returned outcome is the
initial response object with the exception nested: `status_code=0`, no
body, no headers. -/
theorem route_request_contains_exceptions (s : Session) (req : RequestMap)
    (e : PyExc) (hraise : Clump.routeRequestInner s req = .error e)
    (hexc : e.isException = true) :
    Clump.route_request s req =
      .ok { request_map := req, status_code := 0, body := none,
            headers := none, error := some e } := by
  unfold Clump.route_request
  rw [hraise]
  simp [hexc, initResponse]

/-- Witness for C10: the `NotImplementedError` raised by the unmapped-verb
branch is contained into the initial outcome. -/
theorem route_request_contains_exceptions_witness :
    Clump.route_request okSession brewReq =
      .ok { request_map := brewReq, status_code := 0, body := none,
            headers := none, error := some PyExc.notImplementedError } :=
  route_request_contains_exceptions okSession brewReq
    PyExc.notImplementedError rfl rfl

/-- On a verb outside the six mapped ones the dispatch `match` raises
`NotImplementedError`. -/
theorem Clump.routeRequestInner_invalid (s : Session) (req : RequestMap)
    (h : req.hasValidOp = false) :
    Clump.routeRequestInner s req = .error .notImplementedError := by
  unfold Clump.routeRequestInner
  split <;> simp_all [RequestMap.hasValidOp, validOps]

/-- Counterexample to claim C6 as stated: routing a request map carrying
the unmapped verb BREW, in fail-fast mode, is not surfaced to the caller:
the `NotImplementedError` is absorbed into a per-request failure outcome
and the dispatch call returns normally. -/
theorem unmapped_verb_absorbed_counterexample :
    Clump.send_requests false okSession [brewReq] =
      .ok [{ request_map := brewReq, status_code := 0, body := none,
             headers := none, error := some PyExc.notImplementedError }] := by
  rfl

/-- Claim C6 amended: reaching an unmapped verb raises
`NotImplementedError`, but the blanket `except Exception` handler of
`_route_request` catches it and converts it into an ordinary per-request
hard-failure outcome (`status_code=0`, error nested); in both dispatch
modes the call returns normally and the defect is not surfaced to the
caller. -/
theorem unmapped_verb_becomes_outcome (s : Session) (req : RequestMap)
    (h : req.hasValidOp = false) :
    Clump.route_request s req =
      .ok { request_map := req, status_code := 0, body := none,
            headers := none, error := some PyExc.notImplementedError } ∧
    ∀ rtn_exc, Clump.send_requests rtn_exc s [req] =
      .ok [{ request_map := req, status_code := 0, body := none,
             headers := none, error := some PyExc.notImplementedError }] := by
  have hin := Clump.routeRequestInner_invalid s req h
  have hroute : Clump.route_request s req =
      .ok { request_map := req, status_code := 0, body := none,
            headers := none, error := some PyExc.notImplementedError } := by
    unfold Clump.route_request
    rw [hin]
    rfl
  refine ⟨hroute, ?_⟩
  intro rtn_exc
  cases rtn_exc
  · rw [Clump.send_requests_failfast_eq]
    simp [Clump.gatherResults, hroute, Clump.firstEscape, Clump.handleGatherItem]
  · rw [Clump.send_requests_collect_eq]
    simp [hroute, Clump.handleGatherItem]

/-- Witness for the amended C6 at the concrete BREW request. -/
theorem unmapped_verb_becomes_outcome_witness :
    Clump.route_request errSession brewReq =
      .ok { request_map := brewReq, status_code := 0, body := none,
            headers := none, error := some PyExc.notImplementedError } ∧
    ∀ rtn_exc, Clump.send_requests rtn_exc errSession [brewReq] =
      .ok [{ request_map := brewReq, status_code := 0, body := none,
             headers := none, error := some PyExc.notImplementedError }] :=
  unmapped_verb_becomes_outcome errSession brewReq rfl

/-- Claim C3: a request whose transport call answers HTTP 200 with a body
that does not decode as JSON yields an outcome with status 200, the
single-key text-wrapper body, the response headers, and the decode error
recorded; the outcome is returned normally (never raised) and is not a
hard failure. -/
theorem decode_fallback_outcome (s : Session) (req : RequestMap)
    (resp : HttpResp) (e : PyExc)
    (hcall : Clump.sessionCall s req = .ok resp)
    (hstatus : resp.status = 200)
    (hjson : resp.jsonResult = .error e)
    (hdec : e.isDecodeError = true) :
    Clump.route_request s req =
      .ok { request_map := req, status_code := 200,
            body := some (textWrapper resp.text),
            headers := some resp.headers, error := some e } ∧
    ¬ RequestResponse.hardFailure
      { request_map := req, status_code := 200,
        body := some (textWrapper resp.text),
        headers := some resp.headers, error := some e } := by
  constructor
  · rw [Clump.route_request_eq_spec]
    unfold Clump.routeSpec
    rw [hcall]
    simp [hjson, hdec, hstatus]
  · rintro ⟨e0, he0, hnd, -, -, -⟩
    cases he0
    rw [hdec] at hnd
    cases hnd

/-- Witness for C3: the plain-text session produces the fallback outcome
for the demo GET request. -/
theorem decode_fallback_outcome_witness :
    Clump.route_request textSession demoGet =
      .ok { request_map := demoGet, status_code := 200,
            body := some (textWrapper textResp.text),
            headers := some textResp.headers,
            error := some (PyExc.contentTypeError "unexpected mimetype") } ∧
    ¬ RequestResponse.hardFailure
      { request_map := demoGet, status_code := 200,
        body := some (textWrapper textResp.text),
        headers := some textResp.headers,
        error := some (PyExc.contentTypeError "unexpected mimetype") } :=
  decode_fallback_outcome textSession demoGet textResp
    (PyExc.contentTypeError "unexpected mimetype") rfl rfl rfl rfl

/-- Claim C9: in collect mode, a gather result at index i that is an
escaped exception is replaced by a synthesized outcome with
`status_code=418`, that exception nested, no body, no headers, and the
i-th input request map. -/
theorem collect_mode_exception_synthesis (s : Session)
    (reqs : List RequestMap) (i : Nat) (req : RequestMap) (e : PyExc)
    (hreq : reqs[i]? = some req)
    (hesc : Clump.route_request s req = .error e) :
    ∃ rs, Clump.send_requests true s reqs = .ok rs ∧
      rs[i]? = some { request_map := req, status_code := 418, body := none,
                      headers := none, error := some e } := by
  refine ⟨_, Clump.send_requests_collect_eq s reqs, ?_⟩
  rw [List.getElem?_map, hreq]
  simp [Clump.handleGatherItem, hesc]

/-- Witness for C9: a cancellation escaping the only task of a singleton
batch is synthesized into the 418 outcome. -/
theorem collect_mode_exception_synthesis_witness :
    ∃ rs, Clump.send_requests true cancelSession [demoGet] = .ok rs ∧
      rs[0]? = some { request_map := demoGet, status_code := 418,
                      body := none, headers := none,
                      error := some (PyExc.baseException "CancelledError") } :=
  collect_mode_exception_synthesis cancelSession [demoGet] 0 demoGet
    (PyExc.baseException "CancelledError") rfl rfl

/-- Claim C7: pydantic construction of a `RequestMap` fails with a
`ValidationError` exactly on a verb outside the six-value `Literal`,
succeeds on each of the six, and every constructed map carries a valid
verb (so an invalid verb never reaches the dispatcher). -/
theorem requestMap_validation_boundary (url op : String)
    (body : Option PyDict) (qp hdrs : Option (List (String × String))) :
    (op ∉ validOps →
      RequestMap.validate url op body qp hdrs =
        .error (.literalError "http_op" op)) ∧
    (op ∈ validOps →
      RequestMap.validate url op body qp hdrs =
        .ok { url := url, http_op := op, body := body, query_params := qp,
              headers := hdrs }) ∧
    (∀ r, RequestMap.validate url op body qp hdrs = .ok r →
      r.hasValidOp = true) := by
  refine ⟨?_, ?_, ?_⟩
  · intro h
    simp [RequestMap.validate, h]
  · intro h
    simp [RequestMap.validate, h]
  · intro r h
    unfold RequestMap.validate at h
    split at h
    · rename_i hin
      cases h
      simpa [RequestMap.hasValidOp] using hin
    · cases h

/-- Witness for C7: BREW is rejected at construction time, GET is
accepted. -/
theorem requestMap_validation_boundary_witness :
    RequestMap.validate "http://localhost:44777/" "BREW" none none none =
      .error (.literalError "http_op" "BREW") ∧
    RequestMap.validate "http://localhost:44777/" "GET" none none none =
      .ok { url := "http://localhost:44777/", http_op := "GET", body := none,
            query_params := none, headers := none } :=
  ⟨(requestMap_validation_boundary "http://localhost:44777/" "BREW"
      none none none).1 (by decide),
   (requestMap_validation_boundary "http://localhost:44777/" "GET"
      none none none).2.1 (by decide)⟩

/-- `_processResults` accounts for every task result: responses plus
exceptions sum to the input length. -/
theorem processResults_length (l : List (Except PyExc ZRequestResponse)) :
    (processResults l).requestResponses.length +
      (processResults l).taskExceptions.length = l.length := by
  induction l with
  | nil => rfl
  | cons a t ih =>
      cases a <;> simp [processResults] <;> omega

/-- Claim C8: a zSession dispatch with `return_exceptions=true` over N
request maps returns a `RequestResults` whose response count plus
exception count equals N. -/
theorem zsession_partition_cardinality (s : Session)
    (reqs : List ZRequestMap) :
    ∃ res, zSession.sendRequests true s reqs = .ok res ∧
      res.requestResponses.length + res.taskExceptions.length =
        reqs.length := by
  refine ⟨processResults (reqs.map (zSession.routeIndividualRequest s)),
    ?_, ?_⟩
  · simp [zSession.sendRequests]
  · rw [processResults_length]
    simp

/-- Claim C5, evaluated at the failing input: the zSession router sends a
POST request map through the GET transport operation, with no body
payload.  The probe session records the invoked operation in the status
(1 = GET, 2 = POST) and echoes the body argument it received; routing the
POST map observes operation 1 and an empty body argument even though the
map carries a body (`_sendPostRequest` exists in the source but is never
called). -/
theorem zsession_post_routed_to_get :
    zSession.routeIndividualRequest opProbeSession zPostReq =
      .ok { requestMap := zPostReq, statusCode := 1,
            responseBody := some [] } := by
  rfl

/-- A non-`Exception` `BaseException` is not a decode error. -/
theorem PyExc.not_exception_not_decode (e : PyExc)
    (h : e.isException = false) : e.isDecodeError = false := by
  cases e <;> simp_all [PyExc.isException, PyExc.isDecodeError]

/-- Under the transport realism hypothesis, an exception raised by the
transport call of the router is never a decode error. -/
theorem Clump.sessionCall_error_not_decode (s : Session) (req : RequestMap)
    (hs : s.noDecodeRaise) (e : PyExc)
    (h : Clump.sessionCall s req = .error e) : e.isDecodeError = false := by
  unfold Clump.sessionCall at h
  split at h
  all_goals first
    | exact hs _ _ _ _ _ _ h
    | (cases h; rfl)

/-- Under the transport realism hypothesis, an exception escaping the
inner dispatch of a request is never a decode error (those are always
caught and turned into the fallback outcome). -/
theorem Clump.routeSpec_error_not_decode (s : Session) (req : RequestMap)
    (hs : s.noDecodeRaise) (e : PyExc)
    (h : Clump.routeSpec s req = .error e) : e.isDecodeError = false := by
  rcases Clump.routeSpec_error_cases s req e h with hc | ⟨resp, hmm, hj, hnd⟩
  · exact Clump.sessionCall_error_not_decode s req hs e hc
  · exact hnd

/-- Each handled gather item of a dispatch is in exactly one of the three
outcome states. -/
theorem Clump.handled_item_state (s : Session) (req : RequestMap)
    (hs : s.noDecodeRaise) :
    exactlyOneOutcomeState s
      (Clump.handleGatherItem req (Clump.route_request s req)) := by
  unfold exactlyOneOutcomeState
  rw [Clump.route_request_eq_spec]
  cases hspec : Clump.routeSpec s req with
  | ok r0 =>
      simp only [Clump.handleGatherItem]
      unfold Clump.routeSpec at hspec
      split at hspec
      · cases hspec
      · rename_i resp hcall
        split at hspec
        · rename_i body hjson
          cases hspec
          refine Or.inl ⟨⟨rfl, resp, body, hcall, hjson, rfl, rfl, rfl⟩, ?_, ?_⟩
          · rintro ⟨e0, resp0, he0, -⟩
            cases he0
          · rintro ⟨e0, he0, -⟩
            cases he0
        · rename_i e0 hjson
          split at hspec
          · rename_i hdec
            cases hspec
            refine Or.inr (Or.inl
              ⟨?_, ⟨e0, resp, rfl, hdec, hcall, hjson, rfl, rfl, rfl⟩, ?_⟩)
            · rintro ⟨he, -⟩
              cases he
            · rintro ⟨e1, he1, hnd, -⟩
              cases he1
              rw [hdec] at hnd
              cases hnd
          · cases hspec
  | error e =>
      have hnd : e.isDecodeError = false :=
        Clump.routeSpec_error_not_decode s req hs e hspec
      cases hexc : e.isException with
      | true =>
          simp only [hexc, if_true, Clump.handleGatherItem, initResponse]
          refine Or.inr (Or.inr ⟨?_, ?_, e, rfl, hnd, Or.inl rfl, rfl, rfl⟩)
          · rintro ⟨he, -⟩
            cases he
          · rintro ⟨e1, resp1, he1, hd1, -⟩
            cases he1
            rw [hnd] at hd1
            cases hd1
      | false =>
          simp only [hexc, Bool.false_eq_true, if_false, Clump.handleGatherItem]
          refine Or.inr (Or.inr ⟨?_, ?_, e, rfl, hnd, Or.inr rfl, rfl, rfl⟩)
          · rintro ⟨he, -⟩
            cases he
          · rintro ⟨e1, resp1, he1, hd1, -⟩
            cases he1
            rw [hnd] at hd1
            cases hd1

/-- Claim C4: every outcome of a collect-mode dispatch over a transport
that does not itself raise decode errors is in exactly one of the three
mutually exclusive states: clean success, decode fallback, hard
failure. -/
theorem dispatch_outcome_trichotomy (s : Session) (reqs : List RequestMap)
    (rs : List RequestResponse) (hs : s.noDecodeRaise)
    (hok : Clump.send_requests true s reqs = .ok rs) :
    ∀ r ∈ rs, exactlyOneOutcomeState s r := by
  rw [Clump.send_requests_collect_eq] at hok
  cases hok
  intro r hr
  obtain ⟨req, hmem, rfl⟩ := List.mem_map.mp hr
  exact Clump.handled_item_state s req hs

/-- Witness for C4: the first outcome of a concrete dispatch (a decode
fallback) is in exactly one of the three states. -/
theorem dispatch_outcome_trichotomy_witness :
    exactlyOneOutcomeState textSession (textFallbackOutcome demoGet) :=
  dispatch_outcome_trichotomy textSession [demoGet, demoPost]
    [textFallbackOutcome demoGet, textFallbackOutcome demoPost]
    (fun _ _ _ _ _ _ h => by cases h) rfl
    (textFallbackOutcome demoGet) (List.mem_cons_self _ _)

end Loamy
